import Mathlib

/-!
Shallow embedding of `src/discord/new_guild.py`: the guild pre-creation
staging model (roles, channels, permission overwrites) and its one-shot
document serializer (`_to_payload`), together with theorems checking the
specification's claims against it.

Python dicts preserve insertion order, so payloads are modelled as ordered
association lists of string keys to JSON-like values.  Code that can raise
(`TypeError` on bad overwrite targets) is modelled with `Except String`.
Random temp-id allocation (`randint(0, 999_999_999_999)`) is modelled by
passing the freshly drawn id explicitly to each constructing operation.
-/

namespace NewGuildModel

/-- JSON-like value appearing in a request payload. -/
inductive Value where
  | vInt (n : Int)
  | vStr (s : String)
  | vBool (b : Bool)
  | vArr (xs : List Value)
  | vObj (fields : List (String × Value))

open Value

/-- A payload dict: ordered key/value association list. -/
abbrev Payload := List (String × Value)

/-- First-match lookup in a payload, like Python `payload[key]` presence. -/
def plook : Payload → String → Option Value
  | [], _ => none
  | (k, v) :: rest, key => if key = k then some v else plook rest key

/-- Renders one optional field: `if x is not None: payload[k] = x`. -/
def optField (k : String) (v : Option Value) : Payload :=
  match v with
  | some x => [(k, x)]
  | none => []

theorem plook_append (p q : Payload) (k : String) :
    plook (p ++ q) k = match plook p k with | some v => some v | none => plook q k := by
  induction p with
  | nil => simp [plook]
  | cons hd tl ih =>
    obtain ⟨k0, v0⟩ := hd
    by_cases h : k = k0 <;> simp [plook, h, ih]

theorem plook_optField (k k0 : String) (v : Option Value) :
    plook (optField k0 v) k = if k = k0 then v else none := by
  cases v <;> by_cases h : k = k0 <;> simp [optField, plook, h]

theorem plook_single (k k0 : String) (v : Value) :
    plook [(k0, v)] k = if k = k0 then some v else none := by
  by_cases h : k = k0 <;> simp [plook, h]

theorem plook_nil (k : String) : plook [] k = none := rfl

theorem plook_cons (k k0 : String) (v : Value) (rest : Payload) :
    plook ((k0, v) :: rest) k = if k = k0 then some v else plook rest k := rfl

/-- Inclusive lower bound of the temp-id allocator `randint(0, 999_999_999_999)`. -/
def randintLo : Nat := 0

/-- Inclusive upper bound of the temp-id allocator `randint(0, 999_999_999_999)`. -/
def randintHi : Nat := 999999999999

/-- A temp id drawn by the allocator lies in the inclusive range. -/
def validTempId (n : Nat) : Prop := randintLo ≤ n ∧ n ≤ randintHi

/-- Opaque colour value object (`discord.colour.Colour`, external collaborator):
only its `.value` numeric projection is consumed by this core. -/
structure Colour where
  value : Nat
deriving DecidableEq

/-- `Colour.default()`. -/
def Colour.default : Colour := ⟨0⟩

/-- A `Union[Colour, int]` argument as accepted for role colours. -/
inductive ColourArg where
  | col (c : Colour)
  | int (n : Int)
deriving DecidableEq

/-- Python truthiness of a `Union[Colour, int]` value: a `Colour` object is
always truthy; an `int` is truthy iff nonzero. -/
def ColourArg.truthy : ColourArg → Bool
  | .col _ => true
  | .int n => n != 0

/-- Python `a or b` on two optional colour arguments (`None` is falsy). -/
def pyOrColour (a b : Option ColourArg) : Option ColourArg :=
  match a with
  | some x => if x.truthy then some x else b
  | none => b

/-- `self.colour or Colour.default()` as evaluated in `NewRole._to_payload`. -/
def actualColour (c : Option ColourArg) : ColourArg :=
  match c with
  | some x => if x.truthy then x else .col Colour.default
  | none => .col Colour.default

/-- The numeric `color` field value: the int itself, or the Colour's `.value`. -/
def ColourArg.payloadValue : ColourArg → Int
  | .col c => (c.value : Int)
  | .int n => n

/-- Opaque permission bitset (`discord.permissions.Permissions`, external):
only `.value` is consumed. -/
structure Permissions where
  value : Nat
deriving DecidableEq

/-- Modelled from the spec: `PermissionOverwrite` (external `discord.permissions`
module, not under src/) is an allow/deny permission pair; `pair()` projects the
two bitsets. -/
structure PermissionOverwrite where
  allowBits : Nat
  denyBits : Nat
deriving DecidableEq

/-- `perm.pair()`. -/
def PermissionOverwrite.pair (p : PermissionOverwrite) : Permissions × Permissions :=
  (⟨p.allowBits⟩, ⟨p.denyBits⟩)

/-- Modelled from the spec: `abc._Overwrites.ROLE` (external `discord.abc`
module, not under src/), the integer code naming a role overwrite target. -/
def OverwritesROLE : Nat := 0

/-- `NewRole`: staged role entity. -/
structure NewRole where
  id : Nat
  name : Option String
  permissions : Option Permissions
  colour : Option ColourArg
  hoist : Option Bool
  mentionable : Option Bool
deriving DecidableEq

/-- `NewRole.__init__`. -/
def NewRole.mk' (id : Nat) (name : Option String) (permissions : Option Permissions)
    (colour : Option ColourArg) (hoist mentionable : Option Bool) : NewRole :=
  { id, name, permissions, colour, hoist, mentionable }

/-- `NewRole._to_payload`. -/
def NewRole.toPayload (r : NewRole) : Payload :=
  [("id", vInt (r.id : Int))]
  ++ optField "permissions" (r.permissions.map fun p => vStr (toString p.value))
  ++ [("color", vInt (actualColour r.colour).payloadValue)]
  ++ optField "hoist" (r.hoist.map vBool)
  ++ optField "mentionable" (r.mentionable.map vBool)
  ++ optField "name" (r.name.map vStr)

/-- Modelled from the spec: `discord.enums.ChannelType` (not under src/),
integer kind codes for channels, distinct per kind (platform API codes). -/
structure ChannelType where
  value : Nat
deriving DecidableEq

/-- `ChannelType.text`. -/
def ChannelType.text : ChannelType := ⟨0⟩

/-- `ChannelType.voice`. -/
def ChannelType.voice : ChannelType := ⟨2⟩

/-- `ChannelType.category`. -/
def ChannelType.category : ChannelType := ⟨4⟩

/-- `ChannelType.stage_voice`. -/
def ChannelType.stage_voice : ChannelType := ⟨13⟩

/-- `ChannelType.forum`. -/
def ChannelType.forum : ChannelType := ⟨15⟩

/-- Modelled from the spec: `discord.enums.VideoQualityMode` (not under src/),
opaque enum with an integer `.value`. -/
structure VideoQualityMode where
  value : Nat
deriving DecidableEq

/-- Modelled from the spec: `discord.enums.ForumOrderType` (not under src/). -/
structure ForumOrderType where
  value : Nat
deriving DecidableEq

/-- Modelled from the spec: `discord.enums.ForumLayoutType` (not under src/). -/
structure ForumLayoutType where
  value : Nat
deriving DecidableEq

/-- Modelled from the spec: `discord.channel.ForumTag` (not under src/), carried
opaquely; `to_dict()` projects its rendered document. -/
structure ForumTag where
  toDict : Payload

/-- Modelled from the spec: a forum default-reaction emoji argument — either a
structured emoji reference (`_EmojiTag`) or a shorthand textual form; each
normalizes to a rendered tag-reference payload. -/
inductive EmojiInput where
  | fromTag (tagPayload : Payload)
  | fromStr (s : String)

/-- Modelled from the spec: `PartialEmoji.from_str(s)._to_forum_tag_payload()`
(external modules, not under src/), the rendered tag-reference shape of a
textual emoji form. -/
def emojiStrTagPayload (s : String) : Payload :=
  [("emoji_name", vStr s)]

/-- Rendered value of a `default_reaction_emoji` argument. -/
def EmojiInput.tagPayloadOf : EmojiInput → Payload
  | .fromTag p => p
  | .fromStr s => emojiStrTagPayload s

/-- An overwrite-map key as admitted by the builder signatures: a `NewRole`, or
(as `add_forum`'s annotation admits) another staged channel entity, which also
carries a temp id but is not a role. -/
inductive OvTarget where
  | role (r : NewRole)
  | channel (id : Nat)

/-- `target.id` for an overwrite key. -/
def OvTarget.tid : OvTarget → Nat
  | .role r => r.id
  | .channel id => id

/-- An overwrites mapping, in insertion order. -/
abbrev Overwrites := List (OvTarget × PermissionOverwrite)

/-- Kind-specific attributes of each staged channel class. -/
inductive ChannelKindData where
  | text (topic : Option String) (slowmode_delay : Option Int) (nsfw : Option Bool)
      (default_auto_archive_duration : Option Int) (default_thread_slowmode_delay : Option Int)
  | voice (bitrate : Option Int) (user_limit : Option Int) (rtc_region : Option String)
      (video_quality_mode : Option VideoQualityMode)
  | stage (bitrate : Option Int) (user_limit : Option Int) (rtc_region : Option String)
      (video_quality_mode : Option VideoQualityMode)
  | category
  | forum (topic : Option String) (slowmode_delay : Option Int) (nsfw : Option Bool)
      (default_auto_archive_duration : Option Int) (default_thread_slowmode_delay : Option Int)
      (default_sort_order : Option ForumOrderType) (default_reaction_emoji : Option EmojiInput)
      (default_layout : Option ForumLayoutType) (available_tags : Option (List ForumTag))

/-- `NewGuildChannel` base state: temp id, name, kind, parent category (stored
by its temp id; the payload only consumes `self.category.id`), overwrites, and
the subclass's kind-specific attributes. -/
structure NewGuildChannel where
  id : Nat
  name : String
  type : ChannelType
  category : Option Nat
  overwrites : Option Overwrites
  kindData : ChannelKindData

/-- `NewTextChannel.__init__` (passes `type=ChannelType.text` to the base). -/
def mkNewTextChannel (id : Nat) (name : String) (category : Option Nat)
    (overwrites : Option Overwrites) (topic : Option String) (slowmode_delay : Option Int)
    (nsfw : Option Bool) (daad dtsd : Option Int) : NewGuildChannel :=
  { id, name, type := ChannelType.text, category, overwrites,
    kindData := .text topic slowmode_delay nsfw daad dtsd }

/-- `NewVoiceChannel.__init__` (passes `type=ChannelType.voice`). -/
def mkNewVoiceChannel (id : Nat) (name : String) (category : Option Nat)
    (overwrites : Option Overwrites) (bitrate user_limit : Option Int)
    (rtc_region : Option String) (vqm : Option VideoQualityMode) : NewGuildChannel :=
  { id, name, type := ChannelType.voice, category, overwrites,
    kindData := .voice bitrate user_limit rtc_region vqm }

/-- `NewStageChannel.__init__` (passes `type=ChannelType.stage_voice`). -/
def mkNewStageChannel (id : Nat) (name : String) (category : Option Nat)
    (overwrites : Option Overwrites) (bitrate user_limit : Option Int)
    (rtc_region : Option String) (vqm : Option VideoQualityMode) : NewGuildChannel :=
  { id, name, type := ChannelType.stage_voice, category, overwrites,
    kindData := .stage bitrate user_limit rtc_region vqm }

/-- `NewCategory.__init__` (passes `type=ChannelType.category`, `category=None`). -/
def mkNewCategory (id : Nat) (name : String) (overwrites : Option Overwrites) :
    NewGuildChannel :=
  { id, name, type := ChannelType.category, category := none, overwrites,
    kindData := .category }

/-- `NewForum.__init__`: the source passes `type=ChannelType.text` to the base
(line 280), not `ChannelType.forum`. -/
def mkNewForum (id : Nat) (name : String) (category : Option Nat)
    (overwrites : Option Overwrites) (topic : Option String) (slowmode_delay : Option Int)
    (nsfw : Option Bool) (daad dtsd : Option Int) (sort : Option ForumOrderType)
    (emoji : Option EmojiInput) (layout : Option ForumLayoutType)
    (tags : Option (List ForumTag)) : NewGuildChannel :=
  { id, name, type := ChannelType.text, category, overwrites,
    kindData := .forum topic slowmode_delay nsfw daad dtsd sort emoji layout tags }

/-- Effect-aware map over a list, mirroring the serializer's per-element loops
and comprehensions: stops at the first raised error. -/
def exMapM {α β : Type} (f : α → Except String β) : List α → Except String (List β)
  | [] => .ok []
  | a :: as =>
    match f a with
    | .error e => .error e
    | .ok b =>
      match exMapM f as with
      | .error e => .error e
      | .ok bs => .ok (b :: bs)

/-- The overwrite document built by each iteration of the overwrite loop in
`NewGuildChannel._to_payload`, in the source's dict insertion order. -/
def overwriteDoc (tid allowValue denyValue : Nat) : Payload :=
  [("allow", vInt (allowValue : Int)), ("deny", vInt (denyValue : Int)),
    ("id", vInt (tid : Int)), ("type", vInt (OverwritesROLE : Int))]

/-- The `TypeError` message raised for a non-`NewRole` overwrite key. -/
def nonRoleKeyMsg : String := "Expected NewRole received PermissionOverwrite"

/-- One iteration of the overwrite loop in `NewGuildChannel._to_payload`: build
the overwrite document, then reject any key that is not a `NewRole` with a
`TypeError` (the source interpolates `perm.__class__.__name__`, which at that
point is always `PermissionOverwrite`, into the message). -/
def overwriteEntry (target : OvTarget) (perm : PermissionOverwrite) :
    Except String Payload :=
  let (allow, deny) := perm.pair
  let ow : Payload := overwriteDoc target.tid allow.value deny.value
  match target with
  | .role _ => .ok ow
  | .channel _ => .error nonRoleKeyMsg

/-- `NewGuildChannel._to_payload` (the shared base part). -/
def NewGuildChannel.basePayload (c : NewGuildChannel) : Except String Payload :=
  match exMapM (fun tp => overwriteEntry tp.1 tp.2) (c.overwrites.getD []) with
  | .error e => .error e
  | .ok perms =>
    .ok ([("id", vInt (c.id : Int)), ("name", vStr c.name), ("type", vInt (c.type.value : Int))]
      ++ (if perms.isEmpty then [] else [("permission_overwrites", vArr (perms.map vObj))])
      ++ (match c.category with
          | some cid => [("parent_id", vInt (cid : Int))]
          | none => []))

/-- The kind-specific fields appended by each subclass's `_to_payload` override. -/
def kindExtras : ChannelKindData → Payload
  | .text topic sd nsfw daad dtsd =>
    optField "topic" (topic.map vStr)
    ++ optField "rate_limit_per_user" (sd.map vInt)
    ++ optField "nsfw" (nsfw.map vBool)
    ++ optField "default_auto_archive_duration" (daad.map vInt)
    ++ optField "default_thread_rate_limit_per_user" (dtsd.map vInt)
  | .voice bitrate ul region vqm =>
    optField "bitrate" (bitrate.map vInt)
    ++ optField "user_limit" (ul.map vInt)
    ++ optField "rtc_region" (region.map vStr)
    ++ optField "video_quality_mode" (vqm.map fun m => vInt (m.value : Int))
  | .stage bitrate ul region vqm =>
    optField "bitrate" (bitrate.map vInt)
    ++ optField "user_limit" (ul.map vInt)
    ++ optField "rtc_region" (region.map vStr)
    ++ optField "video_quality_mode" (vqm.map fun m => vInt (m.value : Int))
  | .category => []
  | .forum topic sd nsfw daad dtsd sort emoji layout tags =>
    optField "topic" (topic.map vStr)
    ++ optField "rate_limit_per_user" (sd.map vInt)
    ++ optField "nsfw" (nsfw.map vBool)
    ++ optField "default_auto_archive_duration" (daad.map vInt)
    ++ optField "default_thread_rate_limit_per_user" (dtsd.map vInt)
    ++ optField "default_sort_order" (sort.map fun s => vInt (s.value : Int))
    ++ optField "default_reaction_emoji" (emoji.map fun e => vObj e.tagPayloadOf)
    ++ optField "default_forum_layout" (layout.map fun l => vInt (l.value : Int))
    ++ optField "available_tags" (tags.map fun ts => vArr (ts.map fun t => vObj t.toDict))

/-- A channel's full `_to_payload`: the base payload plus the subclass's
kind-specific optional fields. -/
def NewGuildChannel.toPayload (c : NewGuildChannel) : Except String Payload :=
  match c.basePayload with
  | .error e => .error e
  | .ok base => .ok (base ++ kindExtras c.kindData)

/-- Modelled from the spec: `discord.enums.VerificationLevel` (not under src/),
opaque enum with an integer `.value`; members are truthy objects. -/
structure VerificationLevel where
  value : Nat
deriving DecidableEq

/-- Modelled from the spec: `discord.enums.NotificationLevel` (not under src/). -/
structure NotificationLevel where
  value : Nat
deriving DecidableEq

/-- Modelled from the spec: `discord.enums.ContentFilter` (not under src/). -/
structure ContentFilter where
  value : Nat
deriving DecidableEq

/-- Modelled from the spec: `discord.flags.SystemChannelFlags` (not under src/),
opaque bitset object with an integer `.value`; instances are truthy objects. -/
structure SystemChannelFlags where
  value : Nat
deriving DecidableEq

/-- Modelled from the spec: `discord.utils._bytes_to_base64_data` (not under
src/), the opaque byte-to-text embedded-image encoding of the icon blob. -/
def bytesToBase64Data (b : List Nat) : String :=
  String.intercalate "," (b.map toString)

/-- `NewGuild`: the staging graph aggregate root (the external `_state`
collaborator is out of scope and not carried). -/
structure NewGuild where
  name : String
  icon : Option (List Nat) := none
  afk_timeout : Option Int := none
  verification_level : Option VerificationLevel := none
  notification_level : Option NotificationLevel := none
  content_filter : Option ContentFilter := none
  system_channel_flags : Option SystemChannelFlags := none
  roles : List NewRole := []
  channels : List NewGuildChannel := []
  afk_channel_id : Option Nat := none
  system_channel_id : Option Nat := none

/-- `NewGuild.__init__`: top-level attributes from the caller, empty role and
channel sequences, no AFK/system designation. -/
def mkNewGuild (name : String) (icon : Option (List Nat)) (afk_timeout : Option Int)
    (verification_level : Option VerificationLevel)
    (notification_level : Option NotificationLevel) (content_filter : Option ContentFilter)
    (system_channel_flags : Option SystemChannelFlags) : NewGuild :=
  { name, icon, afk_timeout, verification_level, notification_level, content_filter,
    system_channel_flags }

/-- The construct-and-append tail of `NewGuild.add_role` (lines 389-397), shared
with the default-role population path; `colour=color or colour`. -/
def addRoleAppend (g : NewGuild) (newId : Nat) (name : String)
    (permissions : Option Permissions) (color colour : Option ColourArg)
    (hoist mentionable : Option Bool) : NewRole × NewGuild :=
  let role : NewRole := NewRole.mk' newId (some name) permissions
    (pyOrColour color colour) hoist mentionable
  (role, { g with roles := g.roles ++ [role] })

/-- `NewGuild.add_role`: when the roles sequence is empty and the requested name
is not `'@everyone'`, touching `default_role` first populates the default role
(which re-enters `add_role` with name `'@everyone'`, taking the append path
directly); then the requested role is constructed and appended.  `everyoneId`
is the temp id drawn if the default role is synthesized, `newId` the one drawn
for the requested role. -/
def NewGuild.add_role (g : NewGuild) (everyoneId newId : Nat) (name : String)
    (permissions : Option Permissions) (color colour : Option ColourArg)
    (hoist mentionable : Option Bool) : NewRole × NewGuild :=
  let g :=
    if g.roles.isEmpty ∧ name ≠ "@everyone" then
      (addRoleAppend g everyoneId "@everyone" none none none none none).2
    else g
  addRoleAppend g newId name permissions color colour hoist mentionable

/-- `NewGuild.default_role`: lazy, mutating accessor — synthesizes the
`'@everyone'` role when the sequence is empty, then returns `roles[0]`
(`none` models the impossible `IndexError`). -/
def NewGuild.default_role (g : NewGuild) (freshId : Nat) :
    Option NewRole × NewGuild :=
  let g' :=
    if g.roles.isEmpty then
      (g.add_role freshId freshId "@everyone" none none none none none).2
    else g
  (g'.roles.head?, g')

/-- The role synthesized by the default-role population path. -/
def defaultEveryoneRole (id : Nat) : NewRole :=
  NewRole.mk' id (some "@everyone") none none none none

/-- Keyword options of `NewGuild.add_text_channel` (minus `category`). -/
structure TextOpts where
  topic : Option String := none
  slowmode_delay : Option Int := none
  nsfw : Option Bool := none
  overwrites : Option Overwrites := none
  default_auto_archive_duration : Option Int := none
  default_thread_slowmode_delay : Option Int := none
  is_system_channel : Bool := false

/-- `NewGuild.add_text_channel`. -/
def NewGuild.add_text_channel (g : NewGuild) (newId : Nat) (name : String)
    (category : Option Nat) (o : TextOpts) : NewGuildChannel × NewGuild :=
  let channel := mkNewTextChannel newId name category o.overwrites o.topic
    o.slowmode_delay o.nsfw o.default_auto_archive_duration o.default_thread_slowmode_delay
  (channel,
    { g with
      channels := g.channels ++ [channel],
      system_channel_id :=
        if o.is_system_channel then some channel.id else g.system_channel_id })

/-- Keyword options of `NewGuild.add_voice_channel` (minus `category`). -/
structure VoiceOpts where
  bitrate : Option Int := none
  user_limit : Option Int := none
  rtc_region : Option String := none
  video_quality_mode : Option VideoQualityMode := none
  overwrites : Option Overwrites := none
  is_afk_channel : Bool := false

/-- `NewGuild.add_voice_channel`. -/
def NewGuild.add_voice_channel (g : NewGuild) (newId : Nat) (name : String)
    (category : Option Nat) (o : VoiceOpts) : NewGuildChannel × NewGuild :=
  let channel := mkNewVoiceChannel newId name category o.overwrites o.bitrate
    o.user_limit o.rtc_region o.video_quality_mode
  (channel,
    { g with
      channels := g.channels ++ [channel],
      afk_channel_id :=
        if o.is_afk_channel then some channel.id else g.afk_channel_id })

/-- Keyword options of `NewGuild.add_stage_channel` (minus `category`). -/
structure StageOpts where
  bitrate : Option Int := none
  user_limit : Option Int := none
  rtc_region : Option String := none
  video_quality_mode : Option VideoQualityMode := none
  overwrites : Option Overwrites := none

/-- `NewGuild.add_stage_channel`. -/
def NewGuild.add_stage_channel (g : NewGuild) (newId : Nat) (name : String)
    (category : Option Nat) (o : StageOpts) : NewGuildChannel × NewGuild :=
  let channel := mkNewStageChannel newId name category o.overwrites o.bitrate
    o.user_limit o.rtc_region o.video_quality_mode
  (channel, { g with channels := g.channels ++ [channel] })

/-- `NewGuild.add_category` (aliased as `add_category_channel`). -/
def NewGuild.add_category (g : NewGuild) (newId : Nat) (name : String)
    (overwrites : Option Overwrites) : NewGuildChannel × NewGuild :=
  let channel := mkNewCategory newId name overwrites
  (channel, { g with channels := g.channels ++ [channel] })

/-- Keyword options of `NewGuild.add_forum` (minus `category`). -/
structure ForumOpts where
  topic : Option String := none
  slowmode_delay : Option Int := none
  nsfw : Option Bool := none
  overwrites : Option Overwrites := none
  default_auto_archive_duration : Option Int := none
  default_thread_slowmode_delay : Option Int := none
  default_sort_order : Option ForumOrderType := none
  default_reaction_emoji : Option EmojiInput := none
  default_layout : Option ForumLayoutType := none
  available_tags : Option (List ForumTag) := none

/-- `NewGuild.add_forum`. -/
def NewGuild.add_forum (g : NewGuild) (newId : Nat) (name : String)
    (category : Option Nat) (o : ForumOpts) : NewGuildChannel × NewGuild :=
  let channel := mkNewForum newId name category o.overwrites o.topic o.slowmode_delay
    o.nsfw o.default_auto_archive_duration o.default_thread_slowmode_delay
    o.default_sort_order o.default_reaction_emoji o.default_layout o.available_tags
  (channel, { g with channels := g.channels ++ [channel] })

namespace NewCategory

/-- `NewCategory.add_text_channel`: delegates to the owning graph's operation
with this category pre-filled as parent. -/
def add_text_channel (cat : NewGuildChannel) (g : NewGuild) (newId : Nat)
    (name : String) (o : TextOpts) : NewGuildChannel × NewGuild :=
  g.add_text_channel newId name (some cat.id) o

/-- `NewCategory.add_voice_channel`: delegation with this category as parent. -/
def add_voice_channel (cat : NewGuildChannel) (g : NewGuild) (newId : Nat)
    (name : String) (o : VoiceOpts) : NewGuildChannel × NewGuild :=
  g.add_voice_channel newId name (some cat.id) o

/-- `NewCategory.add_stage_channel`: delegation with this category as parent. -/
def add_stage_channel (cat : NewGuildChannel) (g : NewGuild) (newId : Nat)
    (name : String) (o : StageOpts) : NewGuildChannel × NewGuild :=
  g.add_stage_channel newId name (some cat.id) o

/-- `NewCategory.add_forum`: delegation with this category as parent. -/
def add_forum (cat : NewGuildChannel) (g : NewGuild) (newId : Nat)
    (name : String) (o : ForumOpts) : NewGuildChannel × NewGuild :=
  g.add_forum newId name (some cat.id) o

end NewCategory

/-- Truthiness gate on the recorded AFK/system channel id:
`if self.afk_channel_id:` is false for both `None` and `0`. -/
def truthyId : Option Nat → Option Value
  | some n => if n = 0 then none else some (vInt (n : Int))
  | none => none

/-- Truthiness gate on the icon blob: `if self.icon:` is false for `None` and
for an empty byte string. -/
def truthyIcon : Option (List Nat) → Option Value
  | some b => if b.isEmpty then none else some (vStr (bytesToBase64Data b))
  | none => none

/-- The scalar/roles head of `NewGuild._to_payload`: `name` always, optional
top-level attributes only when truthy/set, then the `roles` sequence only when
non-empty (enum members and flags instances are truthy objects). -/
def NewGuild.basePayload (g : NewGuild) : Payload :=
  [("name", vStr g.name)]
  ++ optField "icon" (truthyIcon g.icon)
  ++ optField "afk_timeout" (g.afk_timeout.map vInt)
  ++ optField "verification_level" (g.verification_level.map fun v => vInt (v.value : Int))
  ++ optField "default_message_notifications" (g.notification_level.map fun v => vInt (v.value : Int))
  ++ optField "explicit_content_filter" (g.content_filter.map fun v => vInt (v.value : Int))
  ++ optField "system_channel_flags" (g.system_channel_flags.map fun v => vInt (v.value : Int))
  ++ (if g.roles.isEmpty then []
      else [("roles", vArr (g.roles.map fun r => vObj r.toPayload))])

/-- `NewGuild._to_payload`: scalar head and roles, then — only when the
channels sequence is non-empty — the channel documents followed by the
truthiness-gated `afk_channel_id` / `system_channel_id` fields. -/
def NewGuild.toPayload (g : NewGuild) : Except String Payload :=
  if g.channels.isEmpty then .ok g.basePayload
  else
    match exMapM NewGuildChannel.toPayload g.channels with
    | .error e => .error e
    | .ok cs =>
      .ok (g.basePayload
        ++ [("channels", vArr (cs.map vObj))]
        ++ optField "afk_channel_id" (truthyId g.afk_channel_id)
        ++ optField "system_channel_id" (truthyId g.system_channel_id))

theorem exMapM_error_of_mem {α β : Type} (f : α → Except String β) (l : List α) (x : α)
    (hx : x ∈ l) (e : String) (hf : f x = .error e) :
    ∃ m, exMapM f l = .error m := by
  induction l with
  | nil => cases hx
  | cons hd tl ih =>
    rcases List.mem_cons.mp hx with rfl | hmem
    · exact ⟨e, by simp [exMapM, hf]⟩
    · cases hhd : f hd with
      | error e2 => exact ⟨e2, by simp [exMapM, hhd]⟩
      | ok b =>
        obtain ⟨m, hm⟩ := ih hmem
        exact ⟨m, by simp [exMapM, hhd, hm]⟩

theorem channel_toPayload_ok_inv (c : NewGuildChannel) (p : Payload)
    (h : c.toPayload = .ok p) :
    ∃ pb, c.basePayload = .ok pb ∧ p = pb ++ kindExtras c.kindData := by
  unfold NewGuildChannel.toPayload at h
  cases hb : c.basePayload with
  | error e => rw [hb] at h; cases h
  | ok pb =>
    rw [hb] at h
    refine ⟨pb, rfl, ?_⟩
    cases h
    rfl

theorem basePayload_ok_inv (c : NewGuildChannel) (pb : Payload)
    (h : c.basePayload = .ok pb) :
    ∃ perms, exMapM (fun tp => overwriteEntry tp.1 tp.2) (c.overwrites.getD []) = .ok perms ∧
      pb = [("id", vInt (c.id : Int)), ("name", vStr c.name), ("type", vInt (c.type.value : Int))]
        ++ (if perms.isEmpty then [] else [("permission_overwrites", vArr (perms.map vObj))])
        ++ (match c.category with
            | some cid => [("parent_id", vInt (cid : Int))]
            | none => []) := by
  unfold NewGuildChannel.basePayload at h
  cases hm : exMapM (fun tp => overwriteEntry tp.1 tp.2) (c.overwrites.getD []) with
  | error e => rw [hm] at h; cases h
  | ok perms =>
    rw [hm] at h
    refine ⟨perms, rfl, ?_⟩
    cases h
    rfl

theorem basePayload_plook_none (c : NewGuildChannel) (pb : Payload) (k : String)
    (h : c.basePayload = .ok pb) (h1 : k ≠ "id") (h2 : k ≠ "name") (h3 : k ≠ "type")
    (h4 : k ≠ "permission_overwrites") (h5 : k ≠ "parent_id") :
    plook pb k = none := by
  obtain ⟨perms, _, rfl⟩ := basePayload_ok_inv c pb h
  cases hp : perms.isEmpty <;> cases hcat : c.category <;>
    simp [plook, plook_append, plook_single, hp, hcat, h1, h2, h3, h4, h5]

theorem kindExtras_plook_parent (kd : ChannelKindData) :
    plook (kindExtras kd) "parent_id" = none := by
  cases kd <;> simp [kindExtras, plook, plook_append, plook_optField]

theorem kindExtras_plook_pow (kd : ChannelKindData) :
    plook (kindExtras kd) "permission_overwrites" = none := by
  cases kd <;> simp [kindExtras, plook, plook_append, plook_optField]

theorem guildBase_plook_none (g : NewGuild) (k : String) (h1 : k ≠ "name")
    (h2 : k ≠ "icon") (h3 : k ≠ "afk_timeout") (h4 : k ≠ "verification_level")
    (h5 : k ≠ "default_message_notifications") (h6 : k ≠ "explicit_content_filter")
    (h7 : k ≠ "system_channel_flags") (h8 : k ≠ "roles") :
    plook g.basePayload k = none := by
  cases hr : g.roles.isEmpty <;>
    simp [NewGuild.basePayload, plook, plook_append, plook_single, plook_optField, hr,
      h1, h2, h3, h4, h5, h6, h7, h8]

theorem guildBase_plook_roles (g : NewGuild) :
    plook g.basePayload "roles" =
      (if g.roles.isEmpty then none
       else some (vArr (g.roles.map fun r => vObj r.toPayload))) := by
  cases hr : g.roles.isEmpty <;>
    simp [NewGuild.basePayload, plook, plook_append, plook_single, plook_optField, hr]

theorem guildBase_plook_icon (g : NewGuild) :
    plook g.basePayload "icon" = truthyIcon g.icon := by
  cases hi : truthyIcon g.icon <;> cases hr : g.roles.isEmpty <;>
    simp [NewGuild.basePayload, plook, plook_append, plook_single, plook_optField, hi, hr]

theorem guildBase_plook_afk_timeout (g : NewGuild) :
    plook g.basePayload "afk_timeout" = g.afk_timeout.map vInt := by
  cases hi : g.afk_timeout <;> cases hr : g.roles.isEmpty <;>
    simp [NewGuild.basePayload, plook, plook_append, plook_single, plook_optField, hi, hr]

theorem guildBase_plook_verification (g : NewGuild) :
    plook g.basePayload "verification_level" =
      g.verification_level.map fun v => vInt (v.value : Int) := by
  cases hi : g.verification_level <;> cases hr : g.roles.isEmpty <;>
    simp [NewGuild.basePayload, plook, plook_append, plook_single, plook_optField, hi, hr]

theorem guildBase_plook_notifications (g : NewGuild) :
    plook g.basePayload "default_message_notifications" =
      g.notification_level.map fun v => vInt (v.value : Int) := by
  cases hi : g.notification_level <;> cases hr : g.roles.isEmpty <;>
    simp [NewGuild.basePayload, plook, plook_append, plook_single, plook_optField, hi, hr]

theorem guildBase_plook_content_filter (g : NewGuild) :
    plook g.basePayload "explicit_content_filter" =
      g.content_filter.map fun v => vInt (v.value : Int) := by
  cases hi : g.content_filter <;> cases hr : g.roles.isEmpty <;>
    simp [NewGuild.basePayload, plook, plook_append, plook_single, plook_optField, hi, hr]

theorem guildBase_plook_flags (g : NewGuild) :
    plook g.basePayload "system_channel_flags" =
      g.system_channel_flags.map fun v => vInt (v.value : Int) := by
  cases hi : g.system_channel_flags <;> cases hr : g.roles.isEmpty <;>
    simp [NewGuild.basePayload, plook, plook_append, plook_single, plook_optField, hi, hr]

theorem guild_toPayload_ok_inv (g : NewGuild) (p : Payload) (h : g.toPayload = .ok p)
    (hc : g.channels.isEmpty = false) :
    ∃ cs, exMapM NewGuildChannel.toPayload g.channels = .ok cs ∧
      p = g.basePayload ++ [("channels", vArr (cs.map vObj))]
        ++ optField "afk_channel_id" (truthyId g.afk_channel_id)
        ++ optField "system_channel_id" (truthyId g.system_channel_id) := by
  unfold NewGuild.toPayload at h
  rw [hc] at h
  simp only [Bool.false_eq_true, if_false] at h
  cases hm : exMapM NewGuildChannel.toPayload g.channels with
  | error e => rw [hm] at h; cases h
  | ok cs =>
    rw [hm] at h
    refine ⟨cs, rfl, ?_⟩
    cases h
    rfl

theorem guild_toPayload_ok_base (g : NewGuild) (p : Payload) (h : g.toPayload = .ok p)
    (hc : g.channels.isEmpty = true) : p = g.basePayload := by
  unfold NewGuild.toPayload at h
  rw [hc] at h
  simp only [if_true] at h
  cases h
  rfl

theorem toPayload_plook_basekey (g : NewGuild) (p : Payload) (k : String)
    (h : g.toPayload = .ok p) (h1 : k ≠ "channels") (h2 : k ≠ "afk_channel_id")
    (h3 : k ≠ "system_channel_id") : plook p k = plook g.basePayload k := by
  cases hc : g.channels.isEmpty with
  | true => rw [guild_toPayload_ok_base g p h hc]
  | false =>
    obtain ⟨cs, -, rfl⟩ := guild_toPayload_ok_inv g p h hc
    cases hb : plook g.basePayload k <;>
      simp [plook_append, plook_single, plook_cons, plook_optField, plook_nil, hb, h1, h2, h3]

theorem toPayload_plook_afk (g : NewGuild) (p : Payload) (h : g.toPayload = .ok p) :
    plook p "afk_channel_id" =
      (if g.channels.isEmpty then none else truthyId g.afk_channel_id) := by
  cases hc : g.channels.isEmpty with
  | true =>
    rw [guild_toPayload_ok_base g p h hc]
    simp [guildBase_plook_none g "afk_channel_id" (by decide) (by decide) (by decide)
      (by decide) (by decide) (by decide) (by decide) (by decide)]
  | false =>
    obtain ⟨cs, -, rfl⟩ := guild_toPayload_ok_inv g p h hc
    have hb := guildBase_plook_none g "afk_channel_id" (by decide) (by decide) (by decide)
      (by decide) (by decide) (by decide) (by decide) (by decide)
    cases ha : truthyId g.afk_channel_id <;>
      simp [plook_append, plook_single, plook_cons, plook_optField, plook_nil, hb, ha, hc]

theorem toPayload_plook_system (g : NewGuild) (p : Payload) (h : g.toPayload = .ok p) :
    plook p "system_channel_id" =
      (if g.channels.isEmpty then none else truthyId g.system_channel_id) := by
  cases hc : g.channels.isEmpty with
  | true =>
    rw [guild_toPayload_ok_base g p h hc]
    simp [guildBase_plook_none g "system_channel_id" (by decide) (by decide) (by decide)
      (by decide) (by decide) (by decide) (by decide) (by decide)]
  | false =>
    obtain ⟨cs, -, rfl⟩ := guild_toPayload_ok_inv g p h hc
    have hb := guildBase_plook_none g "system_channel_id" (by decide) (by decide) (by decide)
      (by decide) (by decide) (by decide) (by decide) (by decide)
    cases ha : truthyId g.system_channel_id <;>
      simp [plook_append, plook_single, plook_cons, plook_optField, plook_nil, hb, ha, hc]

theorem toPayload_plook_channels (g : NewGuild) (p : Payload) (h : g.toPayload = .ok p)
    (hc : g.channels.isEmpty = false) :
    ∃ cs : List Payload, plook p "channels" = some (vArr (cs.map vObj)) := by
  obtain ⟨cs, -, rfl⟩ := guild_toPayload_ok_inv g p h hc
  have hb := guildBase_plook_none g "channels" (by decide) (by decide) (by decide)
    (by decide) (by decide) (by decide) (by decide) (by decide)
  refine ⟨cs, ?_⟩
  simp [plook_append, plook_single, plook_cons, plook_optField, plook_nil, hb]

theorem pyOrColour_none (b : Option ColourArg) : pyOrColour none b = b := rfl

theorem truthyId_some_inv (o : Option Nat) (v : Value) (h : truthyId o = some v) :
    ∃ n, o = some n ∧ n ≠ 0 ∧ v = vInt (n : Int) := by
  cases o with
  | none => cases h
  | some n =>
    by_cases hn : n = 0
    · rw [hn] at h; cases h
    · refine ⟨n, rfl, hn, ?_⟩
      simp [truthyId, hn] at h
      exact h.symm

/-- C1 (amended): serializing a staging graph whose roles sequence is empty
yields a document with no `roles` key at all — the serializer never
synthesizes the default role on its own. -/
theorem C1_no_roles_means_no_roles_key (g : NewGuild) (hroles : g.roles = [])
    (p : Payload) (h : g.toPayload = .ok p) : plook p "roles" = none := by
  have hb := toPayload_plook_basekey g p "roles" h (by decide) (by decide) (by decide)
  rw [hb, guildBase_plook_roles]
  simp [hroles]

/-- C1 witness: a concrete never-touched graph serializes with no `roles` key. -/
theorem C1_no_roles_means_no_roles_key_witness :
    plook [("name", vStr "Test")] "roles" = none :=
  C1_no_roles_means_no_roles_key (mkNewGuild "Test" none none none none none none) rfl
    [("name", vStr "Test")] rfl

/-- C1 counterexample: a graph on which no role was ever added serializes to a
document with no `roles` key, not to a length-1 `roles` sequence holding the
default role as the claim states. -/
theorem C1_counterexample :
    (mkNewGuild "Test" none none none none none none).toPayload
      = .ok [("name", vStr "Test")]
    ∧ plook [("name", vStr "Test")] "roles" = none :=
  ⟨rfl, rfl⟩

/-- C2 (amended): a channel carrying the overwrites mapping `{R: (X, Y)}`
serializes with exactly one `permission_overwrites` entry, with `id` equal to
R's temp id, `type` the ROLE target code, and `allow`/`deny` rendered as the
raw integer bitset values (not string-encoded). -/
theorem C2_overwrite_entry_rendered_as_ints (ch : NewGuildChannel) (R : NewRole)
    (X Y : Nat) (hov : ch.overwrites = some [(.role R, ⟨X, Y⟩)])
    (p : Payload) (h : ch.toPayload = .ok p) :
    plook p "permission_overwrites" = some (vArr [vObj (overwriteDoc R.id X Y)])
    ∧ plook (overwriteDoc R.id X Y) "id" = some (vInt (R.id : Int))
    ∧ plook (overwriteDoc R.id X Y) "type" = some (vInt (OverwritesROLE : Int))
    ∧ plook (overwriteDoc R.id X Y) "allow" = some (vInt (X : Int))
    ∧ plook (overwriteDoc R.id X Y) "deny" = some (vInt (Y : Int)) := by
  obtain ⟨pb, hbase, rfl⟩ := channel_toPayload_ok_inv ch p h
  obtain ⟨perms, hperms, rfl⟩ := basePayload_ok_inv ch pb hbase
  rw [hov] at hperms
  simp [exMapM, overwriteEntry, PermissionOverwrite.pair, OvTarget.tid] at hperms
  refine ⟨?_, by simp [overwriteDoc, plook_cons, plook_nil],
    by simp [overwriteDoc, plook_cons, plook_nil],
    by simp [overwriteDoc, plook_cons, plook_nil],
    by simp [overwriteDoc, plook_cons, plook_nil]⟩
  cases hcat : ch.category <;>
    simp [← hperms, overwriteDoc, plook_cons, plook_append, plook_single, plook_nil,
      plook_optField, hcat]

/-- C2 witness: the amended statement at a concrete channel and role. -/
theorem C2_overwrite_entry_rendered_as_ints_witness :
    plook [("id", vInt 11), ("name", vStr "chat"), ("type", vInt 0),
        ("permission_overwrites", vArr [vObj (overwriteDoc 2 8 0)])] "permission_overwrites"
      = some (vArr [vObj (overwriteDoc 2 8 0)])
    ∧ plook (overwriteDoc 2 8 0) "id" = some (vInt 2)
    ∧ plook (overwriteDoc 2 8 0) "type" = some (vInt 0)
    ∧ plook (overwriteDoc 2 8 0) "allow" = some (vInt 8)
    ∧ plook (overwriteDoc 2 8 0) "deny" = some (vInt 0) :=
  C2_overwrite_entry_rendered_as_ints
    (mkNewTextChannel 11 "chat" none
      (some [(.role (NewRole.mk' 2 none none none none none), ⟨8, 0⟩)])
      none none none none none)
    (NewRole.mk' 2 none none none none none) 8 0 rfl
    [("id", vInt 11), ("name", vStr "chat"), ("type", vInt 0),
      ("permission_overwrites", vArr [vObj (overwriteDoc 2 8 0)])] rfl

/-- C2 counterexample: the serialized overwrite's `allow` is the integer value
`8`, not the string-encoded `"8"` the claim requires. -/
theorem C2_counterexample :
    (mkNewTextChannel 11 "chat" none
        (some [(.role (NewRole.mk' 2 none none none none none), ⟨8, 0⟩)])
        none none none none none).toPayload
      = .ok [("id", vInt 11), ("name", vStr "chat"), ("type", vInt 0),
          ("permission_overwrites", vArr [vObj [("allow", vInt 8), ("deny", vInt 0),
            ("id", vInt 2), ("type", vInt 0)]])]
    ∧ vInt 8 ≠ vStr "8" :=
  ⟨rfl, fun hcontra => Value.noConfusion hcontra⟩

/-- C3: calling `add_role` with a non-default name on a graph with no roles
first synthesizes and appends the `@everyone` default role, then appends the
requested role; the default role is at index 0, the named role at index 1, the
serialized `roles` sequence shows them in that order, and any later `add_role`
on a non-empty graph appends at the end, preserving the order. -/
theorem C3_default_role_synthesized_first (g : NewGuild) (eId nId : Nat) (name : String)
    (perms : Option Permissions) (color colour : Option ColourArg)
    (hoist ment : Option Bool) (r : NewRole) (g' : NewGuild)
    (hroles : g.roles = []) (hname : name ≠ "@everyone")
    (hcall : g.add_role eId nId name perms color colour hoist ment = (r, g')) :
    g'.roles = [defaultEveryoneRole eId, r]
    ∧ r.name = some name
    ∧ (∀ p, g'.toPayload = .ok p →
        plook p "roles"
          = some (vArr [vObj (defaultEveryoneRole eId).toPayload, vObj r.toPayload]))
    ∧ (∀ (g2 : NewGuild) e2 n2 nm2 pr2 c2 cc2 ho2 me2 (r2 : NewRole) (g2' : NewGuild),
        g2.roles ≠ [] → g2.add_role e2 n2 nm2 pr2 c2 cc2 ho2 me2 = (r2, g2') →
        g2'.roles = g2.roles ++ [r2]) := by
  unfold NewGuild.add_role at hcall
  simp [hroles, hname, addRoleAppend, defaultEveryoneRole, NewRole.mk'] at hcall
  obtain ⟨hr, hg⟩ := hcall
  refine ⟨?_, ?_, ?_, ?_⟩
  · rw [← hg]
    simp [defaultEveryoneRole, NewRole.mk', pyOrColour_none, hr]
  · rw [← hr]
  · intro p htp
    have hb := toPayload_plook_basekey g' p "roles" htp (by decide) (by decide) (by decide)
    rw [hb, guildBase_plook_roles]
    have hroles2 : g'.roles = [defaultEveryoneRole eId, r] := by
      rw [← hg]
      simp [defaultEveryoneRole, NewRole.mk', pyOrColour_none, hr]
    simp [hroles2]
  · intro g2 e2 n2 nm2 pr2 c2 cc2 ho2 me2 r2 g2' hne hcall2
    unfold NewGuild.add_role at hcall2
    simp [List.isEmpty_iff, hne, addRoleAppend] at hcall2
    rw [← hcall2.2, ← hcall2.1]

/-- C3 witness: the synthesis at a concrete empty graph. -/
theorem C3_default_role_synthesized_first_witness :
    ((mkNewGuild "Test" none none none none none none).add_role 1 2 "Mods"
        none none none none none).2.roles
      = [defaultEveryoneRole 1,
          ((mkNewGuild "Test" none none none none none none).add_role 1 2 "Mods"
            none none none none none).1] :=
  (C3_default_role_synthesized_first (mkNewGuild "Test" none none none none none none)
    1 2 "Mods" none none none none none _ _ rfl (by decide) rfl).1

/-- C4 (amended): the created role's colour is `color or colour` under Python
truthiness: a truthy `color` wins; `colour` is used only when `color` is unset
(`None`) or falsy (the integer 0). -/
theorem C4_color_wins_when_truthy (g : NewGuild) (eId nId : Nat) (name : String)
    (perms : Option Permissions) (color colour : Option ColourArg)
    (hoist ment : Option Bool) (r : NewRole) (g' : NewGuild)
    (hcall : g.add_role eId nId name perms color colour hoist ment = (r, g')) :
    r.colour = pyOrColour color colour
    ∧ (∀ c, color = some c → c.truthy = true → r.colour = some c)
    ∧ (∀ c, color = some c → c.truthy = false → r.colour = colour)
    ∧ (color = none → r.colour = colour) := by
  unfold NewGuild.add_role at hcall
  have hr : r.colour = pyOrColour color colour := by
    by_cases hcond : g.roles.isEmpty = true ∧ name ≠ "@everyone" <;>
      simp [hcond, addRoleAppend, NewRole.mk'] at hcall <;>
      rw [← hcall.1]
  refine ⟨hr, ?_, ?_, ?_⟩
  · intro c hc htr
    rw [hr, hc]
    simp [pyOrColour, htr]
  · intro c hc htr
    rw [hr, hc]
    simp [pyOrColour, htr]
  · intro hc
    rw [hr, hc]
    simp [pyOrColour]

/-- C4 witness: with `color = 1` and `colour = 2` both given, the stored colour
is `1` (the `color` argument). -/
theorem C4_color_wins_when_truthy_witness :
    ((mkNewGuild "Test" none none none none none none).add_role 1 2 "Mods"
        none (some (.int 1)) (some (.int 2)) none none).1.colour
      = some (.int 1) :=
  (C4_color_wins_when_truthy (mkNewGuild "Test" none none none none none none)
    1 2 "Mods" none (some (.int 1)) (some (.int 2)) none none _ _ rfl).2.1
    (.int 1) rfl rfl

/-- C4 counterexample: with both aliases given (`color = 1`, `colour = 2`), the
created role's colour equals the `color` argument, not the `colour` argument
the claim says must win. -/
theorem C4_counterexample :
    ((mkNewGuild "Test" none none none none none none).add_role 1 2 "Mods"
        none (some (.int 1)) (some (.int 2)) none none).1.colour
      = some (.int 1)
    ∧ (some (ColourArg.int 1) : Option ColourArg) ≠ some (.int 2) :=
  ⟨rfl, by decide⟩

/-- C5: the channel returned by `add_forum` carries `ChannelType.text` (the
source's `NewForum.__init__` passes `type=ChannelType.text`), so its document
renders the text kind code, not the distinct forum kind code the claim (and
the class's own purpose) requires. -/
theorem C5_forum_channel_renders_text_kind :
    ((mkNewGuild "Test" none none none none none none).add_forum 5 "help" none {}).1.type
      = ChannelType.text
    ∧ ((mkNewGuild "Test" none none none none none none).add_forum 5 "help"
        none {}).1.toPayload
      = .ok [("id", vInt 5), ("name", vStr "help"),
          ("type", vInt (ChannelType.text.value : Int))]
    ∧ ChannelType.text.value = 0
    ∧ ChannelType.forum.value = 15
    ∧ ChannelType.text ≠ ChannelType.forum :=
  ⟨rfl, rfl, rfl, rfl, by decide⟩

/-- C6: `afk_channel_id` / `system_channel_id` render only when the channels
sequence is non-empty, and when rendered they equal the recorded temp ids; a
graph with zero channels never renders either key even if an id is internally
tracked. -/
theorem C6_special_channel_fields_need_channels (g : NewGuild) (p : Payload)
    (h : g.toPayload = .ok p) :
    (g.channels = [] →
      plook p "afk_channel_id" = none ∧ plook p "system_channel_id" = none)
    ∧ (∀ v, plook p "afk_channel_id" = some v →
        g.channels ≠ [] ∧ ∃ n, g.afk_channel_id = some n ∧ v = vInt (n : Int))
    ∧ (∀ v, plook p "system_channel_id" = some v →
        g.channels ≠ [] ∧ ∃ n, g.system_channel_id = some n ∧ v = vInt (n : Int)) := by
  have hafk := toPayload_plook_afk g p h
  have hsys := toPayload_plook_system g p h
  refine ⟨?_, ?_, ?_⟩
  · intro hce
    rw [hafk, hsys]
    simp [hce]
  · intro v hv
    rw [hafk] at hv
    cases hce : g.channels.isEmpty with
    | true => rw [hce] at hv; cases hv
    | false =>
      rw [hce] at hv
      simp only [if_neg Bool.false_ne_true] at hv
      obtain ⟨n, hn, -, rfl⟩ := truthyId_some_inv _ _ hv
      exact ⟨by simpa [List.isEmpty_iff] using hce, n, hn, rfl⟩
  · intro v hv
    rw [hsys] at hv
    cases hce : g.channels.isEmpty with
    | true => rw [hce] at hv; cases hv
    | false =>
      rw [hce] at hv
      simp only [if_neg Bool.false_ne_true] at hv
      obtain ⟨n, hn, -, rfl⟩ := truthyId_some_inv _ _ hv
      exact ⟨by simpa [List.isEmpty_iff] using hce, n, hn, rfl⟩

/-- C6 witness: a channel-less graph with both ids internally tracked renders
neither key. -/
theorem C6_special_channel_fields_need_channels_witness :
    plook [("name", vStr "Test")] "afk_channel_id" = none
    ∧ plook [("name", vStr "Test")] "system_channel_id" = none :=
  (C6_special_channel_fields_need_channels
    { name := "Test", afk_channel_id := some 5, system_channel_id := some 7 }
    [("name", vStr "Test")] rfl).1 rfl

/-- C7: if any channel's overwrites mapping contains a non-`NewRole` key,
serialization raises the `TypeError` and produces no document. -/
theorem C7_non_role_overwrite_key_rejected (g : NewGuild) (c : NewGuildChannel)
    (ow : Overwrites) (cid : Nat) (perm : PermissionOverwrite)
    (hc : c ∈ g.channels) (hov : c.overwrites = some ow)
    (hkey : (OvTarget.channel cid, perm) ∈ ow) :
    g.toPayload.toOption = none := by
  have hentry : overwriteEntry (OvTarget.channel cid) perm = .error nonRoleKeyMsg := rfl
  obtain ⟨m, hm⟩ := exMapM_error_of_mem (fun tp => overwriteEntry tp.1 tp.2) ow
    (OvTarget.channel cid, perm) hkey nonRoleKeyMsg hentry
  have hbase : c.basePayload = .error m := by
    unfold NewGuildChannel.basePayload
    rw [hov]
    simp only [Option.getD_some]
    rw [hm]
  have hch : c.toPayload = .error m := by
    unfold NewGuildChannel.toPayload
    rw [hbase]
  obtain ⟨m2, hm2⟩ := exMapM_error_of_mem NewGuildChannel.toPayload g.channels c hc m hch
  have hne : g.channels.isEmpty = false := by
    cases hl : g.channels with
    | nil => rw [hl] at hc; cases hc
    | cons a as => simp [hl]
  unfold NewGuild.toPayload
  rw [hne]
  simp only [Bool.false_eq_true, if_false]
  rw [hm2]
  rfl

/-- C7 witness: a concrete graph whose only channel has a channel-typed
overwrite key serializes to no document. -/
theorem C7_non_role_overwrite_key_rejected_witness :
    (NewGuild.toPayload
      { name := "Test",
        channels := [mkNewTextChannel 3 "t" none
          (some [(.channel 9, ⟨1, 2⟩)]) none none none none none] }).toOption = none :=
  C7_non_role_overwrite_key_rejected
    { name := "Test",
      channels := [mkNewTextChannel 3 "t" none
        (some [(.channel 9, ⟨1, 2⟩)]) none none none none none] }
    (mkNewTextChannel 3 "t" none (some [(.channel 9, ⟨1, 2⟩)]) none none none none none)
    [(.channel 9, ⟨1, 2⟩)] 9 ⟨1, 2⟩ (List.mem_singleton.mpr rfl) rfl
    (List.mem_singleton.mpr rfl)

/-- C8 (amended): every optional attribute left unset at construction is
omitted entirely from the serialized document (no nulls, no defaulted zeros) —
except the role's colour, which always renders as a `color` key with the
default sentinel value when unset. -/
theorem C8_unset_optionals_omitted_except_role_colour
    (r : NewRole) (c : NewGuildChannel) (g : NewGuild) (p pc : Payload)
    (topic : Option String) (sd : Option Int) (nw : Option Bool)
    (daad dtsd : Option Int) :
    (r.permissions = none → plook r.toPayload "permissions" = none)
    ∧ (r.hoist = none → plook r.toPayload "hoist" = none)
    ∧ (r.mentionable = none → plook r.toPayload "mentionable" = none)
    ∧ (r.name = none → plook r.toPayload "name" = none)
    ∧ (c.toPayload = .ok pc → c.category = none → plook pc "parent_id" = none)
    ∧ (c.toPayload = .ok pc → c.overwrites = none →
        plook pc "permission_overwrites" = none)
    ∧ (c.toPayload = .ok pc → c.kindData = .text topic sd nw daad dtsd →
        (topic = none → plook pc "topic" = none)
        ∧ (sd = none → plook pc "rate_limit_per_user" = none)
        ∧ (nw = none → plook pc "nsfw" = none)
        ∧ (daad = none → plook pc "default_auto_archive_duration" = none)
        ∧ (dtsd = none → plook pc "default_thread_rate_limit_per_user" = none))
    ∧ (g.toPayload = .ok p →
        (g.icon = none → plook p "icon" = none)
        ∧ (g.afk_timeout = none → plook p "afk_timeout" = none)
        ∧ (g.verification_level = none → plook p "verification_level" = none)
        ∧ (g.notification_level = none →
            plook p "default_message_notifications" = none)
        ∧ (g.content_filter = none → plook p "explicit_content_filter" = none)
        ∧ (g.system_channel_flags = none → plook p "system_channel_flags" = none)) := by
  refine ⟨?_, ?_, ?_, ?_, ?_, ?_, ?_, ?_⟩
  · intro hu
    simp [NewRole.toPayload, plook_append, plook_cons, plook_single, plook_optField,
      plook_nil, hu]
  · intro hu
    simp [NewRole.toPayload, plook_append, plook_cons, plook_single, plook_optField,
      plook_nil, hu]
  · intro hu
    simp [NewRole.toPayload, plook_append, plook_cons, plook_single, plook_optField,
      plook_nil, hu]
  · intro hu
    simp [NewRole.toPayload, plook_append, plook_cons, plook_single, plook_optField,
      plook_nil, hu]
  · intro htp hu
    obtain ⟨pb, hbase, rfl⟩ := channel_toPayload_ok_inv c pc htp
    have h1 : plook pb "parent_id" = none := by
      obtain ⟨perms, -, rfl⟩ := basePayload_ok_inv c pb hbase
      cases hp : perms.isEmpty <;>
        simp [plook_cons, plook_append, plook_single, plook_nil, hp, hu]
    simp [plook_append, h1, kindExtras_plook_parent]
  · intro htp hu
    obtain ⟨pb, hbase, rfl⟩ := channel_toPayload_ok_inv c pc htp
    have h1 : plook pb "permission_overwrites" = none := by
      obtain ⟨perms, hperms, rfl⟩ := basePayload_ok_inv c pb hbase
      rw [hu] at hperms
      simp only [Option.getD_none, exMapM, Except.ok.injEq] at hperms
      cases hcat : c.category <;>
        simp [plook_cons, plook_append, plook_single, plook_nil, plook_optField,
          ← hperms, hcat]
    simp [plook_append, h1, kindExtras_plook_pow]
  · intro htp hkd
    obtain ⟨pb, hbase, rfl⟩ := channel_toPayload_ok_inv c pc htp
    rw [hkd]
    have hb1 := basePayload_plook_none c pb "topic" hbase (by decide) (by decide)
      (by decide) (by decide) (by decide)
    have hb2 := basePayload_plook_none c pb "rate_limit_per_user" hbase (by decide)
      (by decide) (by decide) (by decide) (by decide)
    have hb3 := basePayload_plook_none c pb "nsfw" hbase (by decide) (by decide)
      (by decide) (by decide) (by decide)
    have hb4 := basePayload_plook_none c pb "default_auto_archive_duration" hbase
      (by decide) (by decide) (by decide) (by decide) (by decide)
    have hb5 := basePayload_plook_none c pb "default_thread_rate_limit_per_user" hbase
      (by decide) (by decide) (by decide) (by decide) (by decide)
    refine ⟨?_, ?_, ?_, ?_, ?_⟩ <;> intro hu <;>
      simp [plook_append, kindExtras, plook_optField, plook_nil, hu, hb1, hb2, hb3,
        hb4, hb5]
  · intro htp
    have hicon := toPayload_plook_basekey g p "icon" htp (by decide) (by decide) (by decide)
    have hafkt := toPayload_plook_basekey g p "afk_timeout" htp (by decide) (by decide)
      (by decide)
    have hver := toPayload_plook_basekey g p "verification_level" htp (by decide)
      (by decide) (by decide)
    have hnot := toPayload_plook_basekey g p "default_message_notifications" htp
      (by decide) (by decide) (by decide)
    have hcf := toPayload_plook_basekey g p "explicit_content_filter" htp (by decide)
      (by decide) (by decide)
    have hfl := toPayload_plook_basekey g p "system_channel_flags" htp (by decide)
      (by decide) (by decide)
    refine ⟨?_, ?_, ?_, ?_, ?_, ?_⟩ <;> intro hu
    · rw [hicon, guildBase_plook_icon, hu]; rfl
    · rw [hafkt, guildBase_plook_afk_timeout, hu]; rfl
    · rw [hver, guildBase_plook_verification, hu]; rfl
    · rw [hnot, guildBase_plook_notifications, hu]; rfl
    · rw [hcf, guildBase_plook_content_filter, hu]; rfl
    · rw [hfl, guildBase_plook_flags, hu]; rfl

/-- C8 witness: a role with unset `hoist` has no `hoist` key, and a guild with
no icon has no `icon` key. -/
theorem C8_unset_optionals_omitted_except_role_colour_witness :
    plook (NewRole.mk' 3 (some "Mods") none none none none).toPayload "hoist" = none
    ∧ plook [("name", vStr "Test")] "icon" = none := by
  have hbig := C8_unset_optionals_omitted_except_role_colour
    (NewRole.mk' 3 (some "Mods") none none none none)
    (mkNewCategory 1 "x" none) (mkNewGuild "Test" none none none none none none)
    [("name", vStr "Test")] [] none none none none none
  exact ⟨hbig.2.1 rfl, (hbig.2.2.2.2.2.2.2 rfl).1 rfl⟩

/-- C8 counterexample: a role constructed with no colour still renders a
`color` key, holding the defaulted sentinel value 0. -/
theorem C8_counterexample :
    (NewRole.mk' 3 (some "Mods") none none none none).colour = none
    ∧ plook (NewRole.mk' 3 (some "Mods") none none none none).toPayload "color"
      = some (vInt 0) :=
  ⟨rfl, rfl⟩

/-- C9: the category's convenience add-channel operations are pure delegation
to the owning graph's operations with this category supplied as the parent:
same returned entity, same resulting graph state. -/
theorem C9_category_ops_are_pure_delegation (cat : NewGuildChannel) (g : NewGuild)
    (newId : Nat) (name : String) (topts : TextOpts) (vo : VoiceOpts) (so : StageOpts)
    (fo : ForumOpts) :
    NewCategory.add_text_channel cat g newId name topts
      = g.add_text_channel newId name (some cat.id) topts
    ∧ NewCategory.add_voice_channel cat g newId name vo
      = g.add_voice_channel newId name (some cat.id) vo
    ∧ NewCategory.add_stage_channel cat g newId name so
      = g.add_stage_channel newId name (some cat.id) so
    ∧ NewCategory.add_forum cat g newId name fo
      = g.add_forum newId name (some cat.id) fo :=
  ⟨rfl, rfl, rfl, rfl⟩

/-- C10: temp ids are drawn from the inclusive range `[0, 999999999999]`, so 0
is a possible id; because the serializer gates `afk_channel_id` and
`system_channel_id` on Python truthiness, a designated AFK (or system) channel
whose temp id is 0 serializes without the corresponding key even though the
channels sequence is non-empty and the designation was recorded. -/
theorem C10_zero_temp_id_suppresses_special_fields (g : NewGuild) (name : String)
    (cat : Option Nat) (o : VoiceOpts) (c : NewGuildChannel) (g' : NewGuild)
    (ho : o.is_afk_channel = true) (hcall : g.add_voice_channel 0 name cat o = (c, g')) :
    validTempId 0
    ∧ c.id = 0
    ∧ g'.afk_channel_id = some 0
    ∧ g'.channels ≠ []
    ∧ (∀ p, g'.toPayload = .ok p →
        plook p "afk_channel_id" = none ∧ plook p "channels" ≠ none)
    ∧ (∀ (g2 : NewGuild) nm2 cat2 (o2 : TextOpts) (c2 : NewGuildChannel) (g2' : NewGuild),
        o2.is_system_channel = true → g2.add_text_channel 0 nm2 cat2 o2 = (c2, g2') →
        g2'.system_channel_id = some 0
        ∧ (∀ p, g2'.toPayload = .ok p → plook p "system_channel_id" = none)) := by
  unfold NewGuild.add_voice_channel at hcall
  simp only [mkNewVoiceChannel, ho, if_true, Prod.mk.injEq] at hcall
  obtain ⟨hcv, hgv⟩ := hcall
  have hcid : c.id = 0 := by rw [← hcv]
  have hafk : g'.afk_channel_id = some 0 := by rw [← hgv]
  have hchan : g'.channels = g.channels ++ [c] := by rw [← hgv, hcv]
  refine ⟨⟨Nat.le_refl 0, by norm_num [randintHi]⟩, hcid, hafk, ?_, ?_, ?_⟩
  · rw [hchan]; simp
  · intro p htp
    have hne : g'.channels.isEmpty = false := by rw [hchan]; simp
    constructor
    · rw [toPayload_plook_afk g' p htp, hne, hafk]
      rfl
    · obtain ⟨cs, hcs⟩ := toPayload_plook_channels g' p htp hne
      rw [hcs]
      simp
  · intro g2 nm2 cat2 o2 c2 g2' ho2 hcall2
    unfold NewGuild.add_text_channel at hcall2
    simp only [mkNewTextChannel, ho2, if_true, Prod.mk.injEq] at hcall2
    obtain ⟨hcv2, hgv2⟩ := hcall2
    have hsys : g2'.system_channel_id = some 0 := by rw [← hgv2]
    refine ⟨hsys, ?_⟩
    intro p htp
    have hne : g2'.channels.isEmpty = false := by
      rw [← hgv2]; simp
    rw [toPayload_plook_system g2' p htp, hne, hsys]
    rfl

/-- C10 witness: a concrete guild whose AFK voice channel drew temp id 0
serializes with a `channels` array but no `afk_channel_id` key. -/
theorem C10_zero_temp_id_suppresses_special_fields_witness :
    plook [("name", vStr "Test"),
        ("channels", vArr [vObj [("id", vInt 0), ("name", vStr "afk"), ("type", vInt 2)]])]
      "afk_channel_id" = none :=
  ((C10_zero_temp_id_suppresses_special_fields
    (mkNewGuild "Test" none none none none none none) "afk" none
    { is_afk_channel := true }
    ((mkNewGuild "Test" none none none none none none).add_voice_channel 0 "afk" none
      { is_afk_channel := true }).1
    ((mkNewGuild "Test" none none none none none none).add_voice_channel 0 "afk" none
      { is_afk_channel := true }).2
    rfl rfl).2.2.2.2.1
    [("name", vStr "Test"),
      ("channels", vArr [vObj [("id", vInt 0), ("name", vStr "afk"), ("type", vInt 2)]])]
    rfl).1

end NewGuildModel
